import Mathlib

/-!
Verification of the neuron-dynamics simulation core.

The source defines three neuronal dynamical systems statically in a
registry `NEURON_MODELS` (keys `lif`, `izhikevich_rs`, `hodgkin_huxley`),
each bundling a display name, parameter metadata, an initial state and a
pure step function `simulate(params, state, dt)`, plus a driver class
`Simulator` whose `animate` method runs a batch of steps per tick, appends
the resulting `(t, x)` samples to a plot buffer and evicts from the front
when the buffer would exceed 5000 entries.

Modelling choices for the shallow embedding:
- JavaScript numbers are modelled as exact rationals `ℚ`.  The numeric
  claims checked here involve only arithmetic that is exact in `ℚ`.
- A `State` object is a record of the component names that appear in the
  source (`x`, `y`, `z`, `n`, `t`).  Every state the program constructs
  carries `x` and `t`, so those are plain rationals; the components `y`,
  `z` and `n` are optional (`Option ℚ`), since the source omits them from
  some states and explicitly tests `state.n !== undefined`.  Reading an
  absent `y`/`z` component would propagate NaN in JavaScript; here such a
  read defaults to `0` (no claim exercises that case), while the read of
  `n` follows the source's explicit default `0.32`.
- `Math.exp` is modelled as an abstract function `e : ℚ → ℚ` supplied as
  a parameter wherever the source calls it; the singularity-guard claims
  hold for every such function.
- Parameter vectors arrive as arrays destructured positionally in the
  source; they are modelled as `List ℚ` read positionally (an absent
  position, NaN in JavaScript, defaults to `0`; no claim exercises it).
-/

/-- A simulation state object: the component names used by the source's
model states.  `x` (the voltage-like observable) and `t` (elapsed time)
are present in every state the program builds; `y`, `z` and `n` may be
absent. -/
structure State where
  x : ℚ
  y : Option ℚ
  z : Option ℚ
  n : Option ℚ
  t : ℚ
  deriving Repr, DecidableEq

/-- A model-registry entry: display name, initial state, step function.
(Parameter metadata and presentation fields of the source entries are
not needed by any claim.) -/
structure ModelDefinition where
  name : String
  initialState : State
  simulate : List ℚ → State → ℚ → State

namespace lif

/-- Source: `NEURON_MODELS.lif.initialState = { x: -70, y: 0, z: 0, t: 0 }`. -/
def initialState : State := ⟨-70, some 0, some 0, none, 0⟩

/-- Source: `const V_reset = El - 5` in `lif.simulate`. -/
def V_reset (El : ℚ) : ℚ := El - 5

/-- The start-of-step voltage of `lif.simulate`:
`if (V >= Vth) V = V_reset` applied to the incoming voltage. -/
def startV (Vth El V : ℚ) : ℚ := if Vth ≤ V then V_reset El else V

/-- Source: `NEURON_MODELS.lif.simulate`: positional parameters `[I, tau, Vth, El]`;
reset to `V_reset` when at or above threshold, one forward-Euler step of
`dV = (El - V + I) / tau`, then clamp the result to the spike marker `0`
when it reaches threshold.  Returns a state with only `x` and `t`. -/
def simulate (params : List ℚ) (state : State) (dt : ℚ) : State :=
  let I := params.getD 0 0
  let tau := params.getD 1 0
  let Vth := params.getD 2 0
  let El := params.getD 3 0
  let V := startV Vth El state.x
  let dV := (El - V + I) / tau
  let newV0 := V + dt * dV
  let newV := if Vth ≤ newV0 then 0 else newV0
  ⟨newV, none, none, none, state.t + dt⟩

end lif

namespace izhikevich_rs

/-- Source: `NEURON_MODELS.izhikevich_rs.initialState = { x: -65, y: -13, z: 0, t: 0 }`. -/
def initialState : State := ⟨-65, some (-13), some 0, none, 0⟩

/-- Source: `NEURON_MODELS.izhikevich_rs.simulate`: positional parameters
`[I, a, b, c, d]`; discrete reset `v ← c, u ← u + d` when `v ≥ 30` at the
start of the step, forward Euler on both variables, then clamp the new `v`
at `30`.  Returns a state with `x`, `y` and `t`. -/
def simulate (params : List ℚ) (state : State) (dt : ℚ) : State :=
  let I := params.getD 0 0
  let a := params.getD 1 0
  let b := params.getD 2 0
  let c := params.getD 3 0
  let d := params.getD 4 0
  let v0 := state.x
  let u0 := (state.y).getD 0
  let v := if 30 ≤ v0 then c else v0
  let u := if 30 ≤ v0 then u0 + d else u0
  let dv := 0.04 * v * v + 5 * v + 140 - u + I
  let du := a * (b * v - u)
  let newV0 := v + dt * dv
  let newV := if 30 ≤ newV0 then 30 else newV0
  ⟨newV, some (u + dt * du), none, none, state.t + dt⟩

end izhikevich_rs

namespace hodgkin_huxley

/-- Source: `NEURON_MODELS.hodgkin_huxley.initialState = { x: -65, y: 0.05, z: 0.6, t: 0 }`
(the `n` gating component is absent: "n is initialized dynamically"). -/
def initialState : State := ⟨-65, some 0.05, some 0.6, none, 0⟩

/-- The `alpha_n` gating rate of `hodgkin_huxley.simulate`: guarded at the
removable singularity `V = -55`, with closed-form limit value `0.1`.
`e` abstracts `Math.exp`. -/
def alpha_n (e : ℚ → ℚ) (V : ℚ) : ℚ :=
  if |V + 55| < 1e-5 then 0.1
  else (0.01 * (V + 55)) / (1 - e (-(V + 55) / 10))

/-- The `beta_n` gating rate of `hodgkin_huxley.simulate`. -/
def beta_n (e : ℚ → ℚ) (V : ℚ) : ℚ := 0.125 * e (-(V + 65) / 80)

/-- The `alpha_m` gating rate of `hodgkin_huxley.simulate`: guarded at the
removable singularity `V = -40`, with closed-form limit value `1.0`. -/
def alpha_m (e : ℚ → ℚ) (V : ℚ) : ℚ :=
  if |V + 40| < 1e-5 then 1.0
  else (0.1 * (V + 40)) / (1 - e (-(V + 40) / 10))

/-- The `beta_m` gating rate of `hodgkin_huxley.simulate`. -/
def beta_m (e : ℚ → ℚ) (V : ℚ) : ℚ := 4 * e (-(V + 65) / 18)

/-- The `alpha_h` gating rate of `hodgkin_huxley.simulate` (no singularity). -/
def alpha_h (e : ℚ → ℚ) (V : ℚ) : ℚ := 0.07 * e (-(V + 65) / 20)

/-- The `beta_h` gating rate of `hodgkin_huxley.simulate` (no singularity). -/
def beta_h (e : ℚ → ℚ) (V : ℚ) : ℚ := 1 / (1 + e (-(V + 35) / 10))

/-- Source: `NEURON_MODELS.hodgkin_huxley.simulate`: positional parameters
`[I_ext, gNa, gK, gL]`; reads `V = x`, `m = y`, `h = z`, and
`n = state.n !== undefined ? state.n : 0.32`; computes the three ionic
currents and integrates all four variables by forward Euler.  Every
returned state carries an `n` component. -/
def simulate (e : ℚ → ℚ) (params : List ℚ) (state : State) (dt : ℚ) : State :=
  let I_ext := params.getD 0 0
  let gNaMax := params.getD 1 0
  let gKMax := params.getD 2 0
  let gL := params.getD 3 0
  let ENa : ℚ := 50
  let EK : ℚ := -77
  let EL : ℚ := -54.4
  let Cm : ℚ := 1.0
  let V := state.x
  let m := (state.y).getD 0
  let h := (state.z).getD 0
  let n := (state.n).getD 0.32
  let INa := gNaMax * (m * m * m) * h * (V - ENa)
  let IK := gKMax * (n * n * n * n) * (V - EK)
  let IL := gL * (V - EL)
  let dV := (I_ext - INa - IK - IL) / Cm
  let dm := alpha_m e V * (1 - m) - beta_m e V * m
  let dh := alpha_h e V * (1 - h) - beta_h e V * h
  let dn := alpha_n e V * (1 - n) - beta_n e V * n
  ⟨V + dt * dV, some (m + dt * dm), some (h + dt * dh),
    some (n + dt * dn), state.t + dt⟩

end hodgkin_huxley

/-- The model registry `NEURON_MODELS`, keyed by the source's model keys.
`e` abstracts `Math.exp`, used only by the Hodgkin–Huxley entry. -/
def NEURON_MODELS (e : ℚ → ℚ) : String → Option ModelDefinition
  | "lif" =>
      some ⟨"Leaky Integrate-and-Fire (LIF)", lif.initialState, lif.simulate⟩
  | "izhikevich_rs" =>
      some ⟨"Izhikevich (Regular Spiking)", izhikevich_rs.initialState,
        izhikevich_rs.simulate⟩
  | "hodgkin_huxley" =>
      some ⟨"Hodgkin–Huxley (Biophysical)", hodgkin_huxley.initialState,
        hodgkin_huxley.simulate e⟩
  | _ => none

/-- Modelled from the spec: the error kinds of the simulation core
(`UnknownModelError`, `InvalidStepError`, `ParameterArityError`).  The
source files under `src/` contain no error type: `Simulator.animate`
calls `simulate` with the configured `dt` unconditionally and
`getCurrentSystem` indexes the registry without a membership check, so
the validating operations exist in the spec only. -/
inductive SimError where
  | UnknownModelError
  | InvalidStepError
  | ParameterArityError
  deriving Repr, DecidableEq

/-- Modelled from the spec: a `SimulationSession` owns the current model
selection and the live `State` (parameter values live with the caller
here, passed per step as in `Simulator.animate`). -/
structure Session where
  model : ModelDefinition
  state : State

namespace Session

/-- Modelled from the spec: `step(dt)` applies the current model's step
function once, replacing the live State, and fails with
`InvalidStepError` if `dt ≤ 0`; on failure no replacement happens, so
the caller keeps the unchanged session.  `src/js/simulator.js` has no
such guarded operation. -/
def step (s : Session) (params : List ℚ) (dt : ℚ) : Except SimError Session :=
  if dt ≤ 0 then .error .InvalidStepError
  else .ok ⟨s.model, s.model.simulate params s.state dt⟩

/-- Modelled from the spec: `selectModel(key)` fails with
`UnknownModelError` when the key is not in the registry (keeping the
prior model) and otherwise sets the current model without resetting the
live State.  `src/js/simulator.js` assigns `currentSystemKey` from a
dropdown without validation, so the membership check exists in the spec
only. -/
def selectModel (e : ℚ → ℚ) (s : Session) (key : String) :
    Except SimError Session :=
  match NEURON_MODELS e key with
  | some m => .ok ⟨m, s.state⟩
  | none => .error .UnknownModelError

end Session

/-- The fixed trajectory-buffer cap: the literal `5000` of
`Simulator.animate`'s `if (this.plotData.length > 5000)`. -/
def MAX_SAMPLES : ℕ := 5000

/-- The per-tick buffer update of `Simulator.animate`: the tick pushes
one batch of `(t, x)` samples (one per integration sub-step, so the
batch size is `stepsPerFrame`), then
`if (this.plotData.length > 5000) this.plotData.splice(0, stepsPerFrame)`
evicts exactly one batch-worth of samples from the front. -/
def tickAppend (buf batch : List (ℚ × ℚ)) : List (ℚ × ℚ) :=
  if MAX_SAMPLES < (buf ++ batch).length then (buf ++ batch).drop batch.length
  else buf ++ batch

/-- Sample ordering: earlier samples have no later time stamps. -/
def timeOrdered (l : List (ℚ × ℚ)) : Prop :=
  List.Pairwise (fun p q : ℚ × ℚ => p.1 ≤ q.1) l

/-- C1: in the Hodgkin–Huxley step function the singular gating rates are
guarded: within `1e-5` of the singular voltage the closed-form limit is
returned instead of the dividing expression; in particular
`alpha_m (-40) = 1.0` and `alpha_n (-55) = 0.1` exactly.  Moreover, for
any exponential taking the value `1` only at `0` (as `Math.exp` does),
the denominator of the unguarded branch is nonzero whenever the guard
does not fire, so the division is never by zero. -/
theorem hh_singularity_guards (e : ℚ → ℚ) (V : ℚ) :
    (|V + 40| < 1e-5 → hodgkin_huxley.alpha_m e V = 1) ∧
    (|V + 55| < 1e-5 → hodgkin_huxley.alpha_n e V = 0.1) ∧
    hodgkin_huxley.alpha_m e (-40) = 1 ∧
    hodgkin_huxley.alpha_n e (-55) = 0.1 ∧
    ((∀ x, e x = 1 → x = 0) → 1e-5 ≤ |V + 40| →
      1 - e (-(V + 40) / 10) ≠ 0) ∧
    ((∀ x, e x = 1 → x = 0) → 1e-5 ≤ |V + 55| →
      1 - e (-(V + 55) / 10) ≠ 0) := by
  refine ⟨fun h => ?_, fun h => ?_, ?_, ?_, fun he h hz => ?_, fun he h hz => ?_⟩
  · simp only [hodgkin_huxley.alpha_m, if_pos h]
    norm_num
  · simp [hodgkin_huxley.alpha_n, h]
  · norm_num [hodgkin_huxley.alpha_m]
  · norm_num [hodgkin_huxley.alpha_n]
  · have h1 : e (-(V + 40) / 10) = 1 := by linarith [sub_eq_zero.mp hz]
    have h2 : -(V + 40) / 10 = 0 := he _ h1
    have h3 : V + 40 = 0 := by linarith [div_eq_zero_iff.mp h2]
    rw [h3] at h
    norm_num at h
  · have h1 : e (-(V + 55) / 10) = 1 := by linarith [sub_eq_zero.mp hz]
    have h2 : -(V + 55) / 10 = 0 := he _ h1
    have h3 : V + 55 = 0 := by linarith [div_eq_zero_iff.mp h2]
    rw [h3] at h
    norm_num at h

/-- Witness for C1 at the concrete exponential `fun _ => 0` and `V = -40`. -/
theorem hh_singularity_guards_witness :
    hodgkin_huxley.alpha_m (fun _ => 0) (-40) = 1 :=
  (hh_singularity_guards (fun _ => 0) (-40)).2.2.1

/-- C7: one Euler step of the LIF model at the default parameters
`I = 21, tau = 20, Vth = -50, El = -70` with `dt = 0.02` from `V = -70`
triggers neither the start-of-step reset nor the spike clamp and returns
exactly `V = -69.979 = -70 + 0.02 * ((-70 - (-70) + 21 * 1) / 20)`. -/
theorem lif_euler_numeric :
    lif.simulate [21, 20, -50, -70] lif.initialState 0.02 =
      ⟨-69.979, none, none, none, 0.02⟩ ∧
    ¬ (-50 : ℚ) ≤ lif.initialState.x ∧
    ¬ (-50 : ℚ) ≤ (-69.979 : ℚ) ∧
    (-69.979 : ℚ) = -70 + 0.02 * ((-70 - (-70) + 21 * 1) / 20) := by
  norm_num [lif.simulate, lif.startV, lif.V_reset, lif.initialState]

/-- C8: the LIF step function returns a state carrying only the `x` and
`t` components: for every input state — whatever extra components it
carries — the returned state has no `y`, no `z` and no `n` component
(`x` and `t` are present in every state by construction). -/
theorem lif_returns_only_x_t (params : List ℚ) (state : State) (dt : ℚ) :
    (lif.simulate params state dt).y = none ∧
    (lif.simulate params state dt).z = none ∧
    (lif.simulate params state dt).n = none := by
  simp [lif.simulate]

/-- C10: the LIF reset potential is not an independent parameter: it is
defined as `El - 5` from the resting-potential parameter, the
start-of-step reset sets the voltage to `El - 5` whenever the incoming
voltage is at or above threshold, and changing `El` moves the reset
value by exactly the same amount. -/
theorem lif_reset_tracks_El (El El2 Vth V : ℚ) :
    lif.V_reset El = El - 5 ∧
    (Vth ≤ V → lif.startV Vth El V = El - 5) ∧
    lif.V_reset El2 - lif.V_reset El = El2 - El := by
  refine ⟨rfl, fun h => ?_, by simp [lif.V_reset]⟩
  simp [lif.startV, lif.V_reset, h]

/-- Witness for C10 at `El = -70, Vth = -50, V = 0`. -/
theorem lif_reset_tracks_El_witness :
    lif.startV (-50) (-70) 0 = -70 - 5 :=
  (lif_reset_tracks_El (-70) (-60) (-50) 0).2.1 (by norm_num)

/-- Counterexample to C2 as stated: with `I = 0, tau = 1, Vth = 1,
El = 10, dt = 1` and starting voltage `V = 0`, the integrated voltage
reaches threshold, so the step returns the spike marker `0`; but since
the spike marker `0` is below this threshold, the next step's
start-of-step voltage is `0`, not the reset value `El - 5 = 5` — the
step following a clamped step does not resume from the reset value when
`Vth > 0`. -/
theorem lif_delayed_reset_cex :
    (1 : ℚ) ≤ lif.startV 1 10 0 + 1 * ((10 - lif.startV 1 10 0 + 0) / 1) ∧
    (lif.simulate [0, 1, 1, 10] ⟨0, none, none, none, 0⟩ 1).x = 0 ∧
    lif.startV 1 10 ((lif.simulate [0, 1, 1, 10] ⟨0, none, none, none, 0⟩ 1).x)
      ≠ lif.V_reset 10 := by
  norm_num [lif.simulate, lif.startV, lif.V_reset]

/-- C2 (amended): the LIF step resets the voltage to `El - 5` before the
forward-Euler integration whenever the incoming voltage is at or above
`Vth` (and integrates from the incoming voltage otherwise); the returned
voltage is the spike marker `0` when the integrated voltage reaches
`Vth` and the integrated voltage itself otherwise; and — provided
`Vth ≤ 0`, as throughout the model's declared threshold range — after a
clamped step the next step's start-of-step voltage is the reset value
`El - 5`. -/
theorem lif_two_phase_step (I tau Vth El V T dt : ℚ) (y z n : Option ℚ) :
    (Vth ≤ V → lif.startV Vth El V = El - 5) ∧
    (¬ Vth ≤ V → lif.startV Vth El V = V) ∧
    (lif.simulate [I, tau, Vth, El] ⟨V, y, z, n, T⟩ dt).x =
      (if Vth ≤ lif.startV Vth El V + dt * ((El - lif.startV Vth El V + I) / tau)
        then 0
        else lif.startV Vth El V + dt * ((El - lif.startV Vth El V + I) / tau)) ∧
    (lif.simulate [I, tau, Vth, El] ⟨V, y, z, n, T⟩ dt).t = T + dt ∧
    (Vth ≤ lif.startV Vth El V + dt * ((El - lif.startV Vth El V + I) / tau) →
      Vth ≤ 0 →
      lif.startV Vth El
          ((lif.simulate [I, tau, Vth, El] ⟨V, y, z, n, T⟩ dt).x) = El - 5) := by
  refine ⟨fun h => ?_, fun h => ?_, ?_, ?_, fun h1 h2 => ?_⟩
  · simp [lif.startV, lif.V_reset, h]
  · simp [lif.startV, h]
  · simp [lif.simulate]
  · simp [lif.simulate]
  · simp only [lif.simulate, List.getD]
    simp only [lif.startV, lif.V_reset] at h1 ⊢
    simp [h1, h2]

/-- Witness for C2 (amended) at `I = 1000, tau = 1, Vth = -50, El = -70,
V = -45, dt = 1`: the step clamps to the spike marker and the following
step resumes from `El - 5 = -75`. -/
theorem lif_two_phase_step_witness :
    lif.startV (-50) (-70)
        ((lif.simulate [1000, 1, -50, -70] ⟨-45, none, none, none, 0⟩ 1).x) =
      -70 - 5 :=
  (lif_two_phase_step 1000 1 (-50) (-70) (-45) 0 1 none none none).2.2.2.2
    (by norm_num [lif.startV, lif.V_reset]) (by norm_num)

/-- Helper for the buffer-cap invariant: one tick's append-and-evict
never leaves the buffer above the cap if it started at or below it. -/
lemma tickAppend_length_le (buf batch : List (ℚ × ℚ))
    (h : buf.length ≤ MAX_SAMPLES) :
    (tickAppend buf batch).length ≤ MAX_SAMPLES := by
  unfold tickAppend
  split
  · simp only [List.length_drop, List.length_append]
    omega
  · omega

/-- C3: after any number of per-tick append-and-evict operations the
trajectory buffer never exceeds `MAX_SAMPLES = 5000`; when an append
pushes the length over the cap, exactly one tick's batch of samples is
evicted from the front (and nothing is evicted otherwise); and eviction
preserves the non-decreasing ordering of sample times. -/
theorem trajectory_buffer_bounded :
    (∀ (batches : List (List (ℚ × ℚ))) (buf : List (ℚ × ℚ)),
      buf.length ≤ MAX_SAMPLES →
      (batches.foldl tickAppend buf).length ≤ MAX_SAMPLES) ∧
    (∀ buf batch : List (ℚ × ℚ), MAX_SAMPLES < (buf ++ batch).length →
      tickAppend buf batch = (buf ++ batch).drop batch.length) ∧
    (∀ buf batch : List (ℚ × ℚ), ¬ MAX_SAMPLES < (buf ++ batch).length →
      tickAppend buf batch = buf ++ batch) ∧
    (∀ buf batch : List (ℚ × ℚ), timeOrdered (buf ++ batch) →
      timeOrdered (tickAppend buf batch)) := by
  refine ⟨?_, ?_, ?_, ?_⟩
  · intro batches
    induction batches with
    | nil => intro buf h; simpa using h
    | cons b bs ih =>
        intro buf h
        exact ih (tickAppend buf b) (tickAppend_length_le buf b h)
  · intro buf batch h
    rw [tickAppend, if_pos h]
  · intro buf batch h
    rw [tickAppend, if_neg h]
  · intro buf batch h
    unfold tickAppend timeOrdered
    split
    · exact h.sublist (List.drop_sublist _ _)
    · exact h

/-- Witness for C3: a length-1 buffer stays within the cap after a tick. -/
theorem trajectory_buffer_bounded_witness :
    (List.foldl tickAppend [((0 : ℚ), (-70 : ℚ))]
        [[(1, -69), (2, -68)]]).length ≤ MAX_SAMPLES :=
  trajectory_buffer_bounded.1 [[(1, -69), (2, -68)]] [(0, -70)]
    (by norm_num [MAX_SAMPLES])

/-- C4: the Izhikevich step applies the discrete reset `v ← c,
u ← u + d` before computing the derivatives whenever `v ≥ 30` at the
start of the step (and leaves `v, u` alone otherwise), integrates both
variables by one forward-Euler step, clamps the returned `v` at `30`
(`min 30 ·`), and returns `u` unclamped. -/
theorem izhikevich_step_semantics (I a b c d V U T dt : ℚ) (z n : Option ℚ) :
    (30 ≤ V →
      izhikevich_rs.simulate [I, a, b, c, d] ⟨V, some U, z, n, T⟩ dt =
        ⟨(if 30 ≤ c + dt * (0.04 * c * c + 5 * c + 140 - (U + d) + I) then 30
          else c + dt * (0.04 * c * c + 5 * c + 140 - (U + d) + I)),
          some ((U + d) + dt * (a * (b * c - (U + d)))),
          none, none, T + dt⟩) ∧
    (¬ 30 ≤ V →
      izhikevich_rs.simulate [I, a, b, c, d] ⟨V, some U, z, n, T⟩ dt =
        ⟨(if 30 ≤ V + dt * (0.04 * V * V + 5 * V + 140 - U + I) then 30
          else V + dt * (0.04 * V * V + 5 * V + 140 - U + I)),
          some (U + dt * (a * (b * V - U))),
          none, none, T + dt⟩) ∧
    (izhikevich_rs.simulate [I, a, b, c, d] ⟨V, some U, z, n, T⟩ dt).x ≤ 30 := by
  have h1 : 30 ≤ V →
      izhikevich_rs.simulate [I, a, b, c, d] ⟨V, some U, z, n, T⟩ dt =
        ⟨(if 30 ≤ c + dt * (0.04 * c * c + 5 * c + 140 - (U + d) + I) then 30
          else c + dt * (0.04 * c * c + 5 * c + 140 - (U + d) + I)),
          some ((U + d) + dt * (a * (b * c - (U + d)))),
          none, none, T + dt⟩ :=
    fun h => by simp [izhikevich_rs.simulate, h]
  have h2 : ¬ 30 ≤ V →
      izhikevich_rs.simulate [I, a, b, c, d] ⟨V, some U, z, n, T⟩ dt =
        ⟨(if 30 ≤ V + dt * (0.04 * V * V + 5 * V + 140 - U + I) then 30
          else V + dt * (0.04 * V * V + 5 * V + 140 - U + I)),
          some (U + dt * (a * (b * V - U))),
          none, none, T + dt⟩ :=
    fun h => by simp [izhikevich_rs.simulate, h]
  refine ⟨h1, h2, ?_⟩
  rcases le_or_lt 30 V with h | h
  · rw [h1 h]
    dsimp only
    split
    · exact le_refl 30
    · next hnot => exact le_of_lt (not_le.mp hnot)
  · rw [h2 (not_le.mpr h)]
    dsimp only
    split
    · exact le_refl 30
    · next hnot => exact le_of_lt (not_le.mp hnot)

/-- Witness for C4 at `I = 10, a = 0.02, b = 0.2, c = -65, d = 8` from
`v = 35 ≥ 30`, `u = -13`, `dt = 1`: the returned `u` is computed from
the reset pair `(c, u + d)`. -/
theorem izhikevich_step_semantics_witness :
    (izhikevich_rs.simulate [10, 0.02, 0.2, -65, 8]
        ⟨35, some (-13), none, none, 0⟩ 1).y =
      some ((-13 + 8) + 1 * (0.02 * (0.2 * (-65) - (-13 + 8)))) := by
  rw [(izhikevich_step_semantics 10 0.02 0.2 (-65) 8 35 (-13) 0 1
    none none).1 (by norm_num)]

/-- C5: the session's `step(dt)` fails with `InvalidStepError` for every
`dt ≤ 0` — producing no new session, so the caller's live State is
unchanged — and for `dt > 0` it succeeds, replacing the live State with
the step function's result (spec-modelled operation: see
`Session.step`). -/
theorem session_step_guard (s : Session) (params : List ℚ) (dt : ℚ) :
    (dt ≤ 0 → s.step params dt = .error .InvalidStepError) ∧
    (0 < dt →
      s.step params dt = .ok ⟨s.model, s.model.simulate params s.state dt⟩) := by
  constructor
  · intro h
    simp [Session.step, h]
  · intro h
    simp [Session.step, not_le.mpr h]

/-- Witness for C5: stepping a LIF session with `dt = -1` fails. -/
theorem session_step_guard_witness :
    Session.step
        ⟨⟨"Leaky Integrate-and-Fire (LIF)", lif.initialState, lif.simulate⟩,
          lif.initialState⟩ [21, 20, -50, -70] (-1) =
      .error .InvalidStepError :=
  (session_step_guard
    ⟨⟨"Leaky Integrate-and-Fire (LIF)", lif.initialState, lif.simulate⟩,
      lif.initialState⟩ [21, 20, -50, -70] (-1)).1 (by norm_num)

/-- C6: selecting a key that is not in the registry fails with
`UnknownModelError`, producing no new session, so the session keeps its
prior current model; selecting a registered key sets the current model
and leaves the live State untouched (spec-modelled operation: see
`Session.selectModel`). -/
theorem session_selectModel_guard (e : ℚ → ℚ) (s : Session) (key : String) :
    (NEURON_MODELS e key = none →
      s.selectModel e key = .error .UnknownModelError) ∧
    (∀ m, NEURON_MODELS e key = some m →
      s.selectModel e key = .ok ⟨m, s.state⟩) := by
  constructor
  · intro h
    simp [Session.selectModel, h]
  · intro m h
    simp [Session.selectModel, h]

/-- Witness for C6: the key `"fitzhugh"` is not registered, so selecting
it from a LIF session fails with `UnknownModelError`. -/
theorem session_selectModel_guard_witness :
    Session.selectModel (fun _ => 0)
        ⟨⟨"Leaky Integrate-and-Fire (LIF)", lif.initialState, lif.simulate⟩,
          lif.initialState⟩ "fitzhugh" =
      .error .UnknownModelError :=
  (session_selectModel_guard (fun _ => 0)
    ⟨⟨"Leaky Integrate-and-Fire (LIF)", lif.initialState, lif.simulate⟩,
      lif.initialState⟩ "fitzhugh").1 rfl

/-- C9: the Hodgkin–Huxley initial state carries no `n` gating
component; the step function behaves on an `n`-less state exactly as if
`n = 0.32`; and every state the step function returns carries an `n`
component — so the default is used exactly on the first step after a
reset. -/
theorem hh_n_default (e : ℚ → ℚ) (params : List ℚ) (state : State) (dt : ℚ) :
    hodgkin_huxley.initialState.n = none ∧
    (hodgkin_huxley.simulate e params state dt).n.isSome = true ∧
    (state.n = none →
      hodgkin_huxley.simulate e params state dt =
        hodgkin_huxley.simulate e params
          ⟨state.x, state.y, state.z, some 0.32, state.t⟩ dt) := by
  refine ⟨rfl, by simp [hodgkin_huxley.simulate], fun h => ?_⟩
  simp [hodgkin_huxley.simulate, h]

/-- Witness for C9: the first step from the Hodgkin–Huxley initial state
(whose `n` is absent) equals the step from the same state with
`n = 0.32`. -/
theorem hh_n_default_witness :
    hodgkin_huxley.simulate (fun _ => 0) [10, 120, 36, 0.3]
        hodgkin_huxley.initialState 0.02 =
      hodgkin_huxley.simulate (fun _ => 0) [10, 120, 36, 0.3]
        ⟨hodgkin_huxley.initialState.x, hodgkin_huxley.initialState.y,
          hodgkin_huxley.initialState.z, some 0.32,
          hodgkin_huxley.initialState.t⟩ 0.02 :=
  (hh_n_default (fun _ => 0) [10, 120, 36, 0.3]
    hodgkin_huxley.initialState 0.02).2.2 rfl
